import Mathlib

/-!
Shallow embedding of the train-station booking core
(src/station/models.py, src/station/serializers.py, src/station/views.py).

Database rows are Lean structures; the database is a record of lists of
rows.  Django model ids are Nat, integer columns are Int.  Fallible
operations (serializer validation, model save) return Except.
-/

/-- Carriage.CarriageType (models.py): Economy / Business / Premium. -/
inductive CarriageType where
  | economy
  | business
  | premium
deriving DecidableEq, Repr

/-- CARRIAGE_TYPE_SEAT_PRICES (models.py): fixed per-seat price by type. -/
def seatPriceOf : CarriageType → Int
  | .economy => 50
  | .business => 100
  | .premium => 150

/-- Row of the Carriage table (models.py).  `train` is the owning train's id.
`seats` is a plain IntegerField with no validator attached. -/
structure Carriage where
  id : Nat
  number : Int
  seats : Int
  train : Nat
  carriage_type : CarriageType
deriving DecidableEq, Repr

/-- Carriage.seat_price (models.py): price looked up from the carriage type. -/
def Carriage.seat_price (c : Carriage) : Int :=
  seatPriceOf c.carriage_type

/-- Carriage.is_seat_number_valid (models.py line 88):
`1 <= seat_number <= self.seats`. -/
def Carriage.is_seat_number_valid (c : Carriage) (seat_number : Int) : Bool :=
  1 ≤ seat_number && seat_number ≤ c.seats

/-- Row of the Train table (models.py).  Only the columns the verified
operations read are kept; capacity is derived, never stored. -/
structure Train where
  id : Nat
  number : String
  train_type : Nat
deriving DecidableEq, Repr

/-- A timestamp as Django's DateTimeField exposes it to the `__day` lookup:
calendar fields plus time of day. -/
structure DateTime where
  year : Int
  month : Nat
  day : Nat
  hour : Nat
  minute : Nat
deriving DecidableEq, Repr

/-- Row of the Journey table (models.py).  `route` and `train` are foreign
keys by id. -/
structure Journey where
  id : Nat
  route : Nat
  train : Nat
  departure_time : DateTime
  arrival_time : DateTime
deriving DecidableEq, Repr

/-- Row of the Order table (models.py): owned by one user. -/
structure Order where
  id : Nat
  user : Nat
deriving DecidableEq, Repr

/-- Row of the Ticket table (models.py): seat number plus foreign keys to
carriage, journey and order, all by id. -/
structure Ticket where
  seat : Int
  carriage : Nat
  journey : Nat
  order : Nat
deriving DecidableEq, Repr

/-- One element of the `tickets` list in a POST /orders body
(TicketSerializer fields: seat, carriage, journey). -/
structure TicketRequest where
  seat : Int
  carriage : Nat
  journey : Nat
deriving DecidableEq, Repr

/-- The relational store: one list per table, plus the auto-increment
counters Django keeps for primary keys. -/
structure DB where
  trains : List Train
  carriages : List Carriage
  journeys : List Journey
  orders : List Order
  tickets : List Ticket
  next_order_id : Nat
  next_carriage_id : Nat
deriving DecidableEq, Repr

/-- Foreign-key resolution of a carriage id (what a PrimaryKeyRelatedField
does when deserializing the `carriage` field). -/
def DB.findCarriage (db : DB) (cid : Nat) : Option Carriage :=
  db.carriages.find? (fun c => c.id == cid)

/-- Foreign-key resolution of a journey id. -/
def DB.findJourney (db : DB) (jid : Nat) : Option Journey :=
  db.journeys.find? (fun j => j.id == jid)

/-- Train.capacity (models.py lines 32-37): Python `sum` of `seats` over the
carriages currently owned by the train; `sum` of an empty generator is 0. -/
def DB.capacity (db : DB) (trainId : Nat) : Int :=
  ((db.carriages.filter (fun c => c.train == trainId)).map Carriage.seats).foldl (· + ·) 0

/-- Errors raised by Ticket.validate_ticket (models.py lines 236-262). -/
inductive TicketError where
  | seatAlreadyTaken
  | seatOutOfRange
deriving DecidableEq, Repr

/-- The existence filter of Ticket.validate_ticket:
`Ticket.objects.filter(carriage=carriage, seat=seat, journey=journey).exists()`
(foreign keys compare by primary key). -/
def ticketExists (tickets : List Ticket) (seat : Int) (carriage : Carriage) (journey : Journey) : Bool :=
  tickets.any (fun t => t.carriage == carriage.id && t.seat == seat && t.journey == journey.id)

/-- Ticket.validate_ticket (models.py lines 236-262): raise SeatAlreadyTaken
when a ticket with the same (carriage, seat, journey) exists, then raise
SeatOutOfRange when the seat number is outside [1, carriage.seats]. -/
def validate_ticket (tickets : List Ticket) (seat : Int) (carriage : Carriage) (journey : Journey) : Except TicketError Unit :=
  if ticketExists tickets seat carriage journey then
    .error .seatAlreadyTaken
  else if !(carriage.is_seat_number_valid seat) then
    .error .seatOutOfRange
  else
    .ok ()

/-- The columns of the `unique_ticket` UniqueConstraint in Ticket.Meta
(models.py lines 281-288). -/
def unique_ticket_fields : List String :=
  ["carriage", "seat", "journey"]

/-- The storage layer's enforcement of the `unique_ticket` constraint: an
INSERT of a row whose (carriage, seat, journey) already exists is rejected
by the database itself, independently of any application-level check. -/
def storageInsertTicket (tickets : List Ticket) (t : Ticket) : Option (List Ticket) :=
  if tickets.any (fun u => u.carriage == t.carriage && u.seat == t.seat && u.journey == t.journey) then
    none
  else
    some (tickets ++ [t])

/-- Errors of the order-placement path (OrderSerializer, serializers.py):
an empty ticket list (allow_empty=False), an unresolvable foreign key, or a
ticket validation failure. -/
inductive OrderError where
  | emptyOrder
  | notFound
  | ticket (e : TicketError)
deriving DecidableEq, Repr

/-- `Ticket.objects.create(order=order, **ticket_data)` inside
OrderSerializer.create: resolve the foreign keys, run Ticket.save's
full_clean (validate_ticket), then INSERT under the `unique_ticket`
storage constraint. -/
def ticketCreate (db : DB) (orderId : Nat) (r : TicketRequest) : Except OrderError DB :=
  match db.findCarriage r.carriage, db.findJourney r.journey with
  | some c, some j =>
    match validate_ticket db.tickets r.seat c j with
    | .error e => .error (.ticket e)
    | .ok _ =>
      match storageInsertTicket db.tickets ⟨r.seat, c.id, j.id, orderId⟩ with
      | none => .error (.ticket .seatAlreadyTaken)
      | some ts => .ok { db with tickets := ts }
  | _, _ => .error .notFound

/-- OrderSerializer.create (serializers.py lines 260-266): inside one
transaction.atomic block, create the order row, then create each ticket in
the order submitted; the first failure aborts the whole transaction, so an
error leaves the store untouched. -/
def placeOrder (db : DB) (userId : Nat) (reqs : List TicketRequest) : Except OrderError DB :=
  if reqs.isEmpty then
    .error .emptyOrder
  else
    let oid := db.next_order_id
    let db1 : DB :=
      { db with
          orders := db.orders ++ [⟨oid, userId⟩],
          next_order_id := oid + 1 }
    reqs.foldlM (fun d r => ticketCreate d oid r) db1

/-- The store after a POST /orders request: the new store on success,
the unchanged store on failure (the transaction rolled back). -/
def applyOrder (db : DB) (userId : Nat) (reqs : List TicketRequest) : DB :=
  match placeOrder db userId reqs with
  | .ok d => d
  | .error _ => db

/-- Errors of carriage creation (CarriageSerializer, serializers.py):
the MinValueValidator(1) on `number`, or a duplicate (number, train). -/
inductive CarriageError where
  | numberBelowMin
  | duplicateNumber
deriving DecidableEq, Repr

/-- Carriage.validate_carriage_number (models.py lines 78-86): fail when a
carriage with this number already exists for this train. -/
def validate_carriage_number (carriages : List Carriage) (number : Int) (train : Nat) : Except CarriageError Unit :=
  if carriages.any (fun c => c.number == number && c.train == train) then
    .error .duplicateNumber
  else
    .ok ()

/-- CarriageSerializer create path (serializers.py lines 24-44): field
validators run first (`number` carries MinValueValidator(1); `seats`
carries none), then validate() checks carriage-number uniqueness, then the
row is inserted.  No check constrains `seats`. -/
def createCarriage (db : DB) (number : Int) (carriage_type : CarriageType) (seats : Int) (train : Nat) : Except CarriageError DB :=
  if number < 1 then
    .error .numberBelowMin
  else
    match validate_carriage_number db.carriages number train with
    | .error e => .error e
    | .ok _ =>
      .ok { db with
              carriages := db.carriages ++ [⟨db.next_carriage_id, number, seats, train, carriage_type⟩],
              next_carriage_id := db.next_carriage_id + 1 }

/-- Deleting a carriage row by primary key (Django delete). -/
def deleteCarriage (db : DB) (cid : Nat) : DB :=
  { db with carriages := db.carriages.filter (fun c => c.id != cid) }

/-- SQL aggregate Sum as the annotation in JourneyViewSet.get_queryset uses
it: NULL (none) over an empty set of joined rows. -/
def sqlSum : List Int → Option Int
  | [] => none
  | xs => some (xs.foldl (· + ·) 0)

/-- The correlated ticket-count subquery of JourneyViewSet.get_queryset
(views.py lines 219-224), wrapped in Coalesce(..., 0). -/
def ticketCount (db : DB) (jid : Nat) : Int :=
  ((db.tickets.filter (fun t => t.journey == jid)).length : Int)

/-- The tickets_available annotation of JourneyViewSet.get_queryset
(views.py lines 226-235): Sum of the train's carriage seats minus the
coalesced ticket count; NULL when the train owns no carriages, because
Sum over no rows is NULL and NULL minus anything is NULL. -/
def tickets_available (db : DB) (j : Journey) : Option Int :=
  match sqlSum ((db.carriages.filter (fun c => c.train == j.train)).map Carriage.seats) with
  | none => none
  | some s => some (s - ticketCount db j.id)

/-- Modelled from the spec's words, for comparison with the code's
annotation: ticketsAvailable = (sum of seats of all carriages on the
journey's train) − (count of tickets already issued for that journey),
with the sum of an empty collection read as the number 0. -/
def spec_tickets_available (db : DB) (j : Journey) : Int :=
  ((db.carriages.filter (fun c => c.train == j.train)).map Carriage.seats).sum
    - ticketCount db j.id

/-- An ISO calendar date as parsed by
`datetime.strptime(value, "%Y-%m-%d").date()` (views.py). -/
structure QueryDate where
  year : Int
  month : Nat
  day : Nat
deriving DecidableEq, Repr

/-- The optional query parameters of the journey list (views.py). -/
structure JourneyFilters where
  departure_time : Option QueryDate
  arrival_time : Option QueryDate
  train : Option Nat
deriving DecidableEq, Repr

/-- The filter chain of JourneyViewSet.get_queryset (views.py lines
237-252): `departure_time__day=...`, `arrival_time__day=...` compare the
day-of-month only; `train__id=...` compares the train id. -/
def filterJourneys (journeys : List Journey) (f : JourneyFilters) : List Journey :=
  let q1 := match f.departure_time with
    | none => journeys
    | some d => journeys.filter (fun j => j.departure_time.day == d.day)
  let q2 := match f.arrival_time with
    | none => q1
    | some d => q1.filter (fun j => j.arrival_time.day == d.day)
  match f.train with
  | none => q2
  | some tid => q2.filter (fun j => j.train == tid)

/-- Invariant of claim C1: any two distinct persisted tickets differ on the
(carriage, seat, journey) triple. -/
def TicketsUnique (tickets : List Ticket) : Prop :=
  tickets.Pairwise (fun t u => (t.carriage, t.seat, t.journey) ≠ (u.carriage, u.seat, u.journey))

/-- Invariant of claim C3: every persisted ticket's seat lies within
[1, seats] of the carriage it references. -/
def SeatRangeInv (db : DB) : Prop :=
  ∀ t ∈ db.tickets, ∀ c, db.findCarriage t.carriage = some c →
    1 ≤ t.seat ∧ t.seat ≤ c.seats

/-- Folding addition from an accumulator equals the accumulator plus the sum. -/
theorem foldl_add_eq_add_sum (l : List Int) (a : Int) : l.foldl (· + ·) a = a + l.sum := by
  induction l generalizing a with
  | nil => simp
  | cons x xs ih =>
    rw [List.foldl_cons, ih, List.sum_cons]
    ring

/-- Train capacity is the mathematical sum of the owned carriages' seats. -/
theorem capacity_eq_sum (db : DB) (trainId : Nat) :
    db.capacity trainId
      = ((db.carriages.filter (fun c => c.train == trainId)).map Carriage.seats).sum := by
  unfold DB.capacity
  rw [foldl_add_eq_add_sum]
  ring

/-- Splitting a list's length by a predicate. -/
theorem length_filter_add_length_not (l : List α) (p : α → Bool) :
    (l.filter p).length + (l.filter (fun a => !(p a))).length = l.length := by
  induction l with
  | nil => rfl
  | cons x xs ih =>
    by_cases h : p x = true
    · simp [List.filter_cons, h, ih]
      omega
    · simp only [Bool.not_eq_true] at h
      simp [List.filter_cons, h, ih]
      omega

/-- Removing one carriage row (distinct ids) subtracts its seats from the
train's seat sum. -/
theorem seats_sum_after_delete (l : List Carriage) (c : Carriage) (trainId : Nat)
    (hnd : (l.map Carriage.id).Nodup) (hc : c ∈ l) (ht : c.train = trainId) :
    (((l.filter (fun x => x.id != c.id)).filter (fun x => x.train == trainId)).map Carriage.seats).sum
      = ((l.filter (fun x => x.train == trainId)).map Carriage.seats).sum - c.seats := by
  induction l with
  | nil => cases hc
  | cons a l ih =>
    simp only [List.map_cons, List.nodup_cons] at hnd
    rcases List.mem_cons.mp hc with rfl | hcl
    · have hskip : l.filter (fun x => x.id != c.id) = l := by
        apply List.filter_eq_self.mpr
        intro x hx
        have : x.id ≠ c.id := by
          intro hxe
          exact hnd.1 (hxe ▸ List.mem_map_of_mem Carriage.id hx)
        simpa using this
      simp [List.filter_cons, ht, hskip]
    · have haid : a.id ≠ c.id := by
        intro hae
        exact hnd.1 (hae ▸ List.mem_map_of_mem Carriage.id hcl)
      have hrec := ih hnd.2 hcl
      rw [List.filter_filter] at hrec
      by_cases hat : a.train = trainId
      · simp [List.filter_cons, haid, hat, List.filter_filter, hrec]
        omega
      · have hat' : (a.train == trainId) = false := by simpa using hat
        simp [List.filter_cons, haid, hat', List.filter_filter, hrec]

/-- C7: for every train T, capacity(T) equals the sum of seats over the
carriages currently owned by T and is computed on read from the current
carriage rows; a successful carriage creation for T increases capacity(T)
by exactly the new carriage's seat count, and deleting one of T's
carriages decreases it by that carriage's seat count. -/
theorem C7_capacity_sum (db : DB) (trainId : Nat) :
    (db.capacity trainId
        = ((db.carriages.filter (fun c => c.train == trainId)).map Carriage.seats).sum)
    ∧ (∀ db' : DB, db'.carriages = db.carriages → db'.capacity trainId = db.capacity trainId)
    ∧ (∀ n s ty d, createCarriage db n ty s trainId = .ok d →
        d.capacity trainId = db.capacity trainId + s)
    ∧ (∀ c, c ∈ db.carriages → c.train = trainId → (db.carriages.map Carriage.id).Nodup →
        (deleteCarriage db c.id).capacity trainId = db.capacity trainId - c.seats) := by
  refine ⟨capacity_eq_sum db trainId, ?_, ?_, ?_⟩
  · intro db' hcar
    unfold DB.capacity
    rw [hcar]
  · intro n s ty d h
    unfold createCarriage at h
    split at h
    · exact absurd h (by simp)
    · unfold validate_carriage_number at h
      split at h
      · exact absurd h (by simp)
      · injection h with h
        subst h
        rw [capacity_eq_sum, capacity_eq_sum]
        simp [List.filter_append]
  · intro c hc ht hnd
    unfold deleteCarriage
    rw [capacity_eq_sum, capacity_eq_sum]
    exact seats_sum_after_delete db.carriages c trainId hnd hc ht

/-- Witness: C7_capacity_sum applied to a concrete store, discharging all
hypotheses at concrete rows. -/
theorem C7_capacity_sum_witness :
    (deleteCarriage
        ({ trains := [⟨1, "T1", 1⟩],
           carriages := [⟨1, 1, 4, 1, CarriageType.economy⟩, ⟨2, 2, 6, 1, CarriageType.business⟩],
           journeys := [], orders := [], tickets := [],
           next_order_id := 1, next_carriage_id := 3 } : DB) 1).capacity 1
      = ({ trains := [⟨1, "T1", 1⟩],
           carriages := [⟨1, 1, 4, 1, CarriageType.economy⟩, ⟨2, 2, 6, 1, CarriageType.business⟩],
           journeys := [], orders := [], tickets := [],
           next_order_id := 1, next_carriage_id := 3 } : DB).capacity 1 - 4 :=
  (C7_capacity_sum _ 1).2.2.2 ⟨1, 1, 4, 1, CarriageType.economy⟩ (by decide) rfl (by decide)

/-- C9: the journey-list filters match by day-of-month only for the two
time parameters (two filter dates sharing a day-of-month produce the same
result whatever their month and year), and exactly by train id for the
train parameter. -/
theorem C9_journey_filter_day_of_month (js : List Journey) (j : Journey) :
    (∀ d : QueryDate, j ∈ filterJourneys js ⟨some d, none, none⟩
        ↔ j ∈ js ∧ j.departure_time.day = d.day)
    ∧ (∀ d : QueryDate, j ∈ filterJourneys js ⟨none, some d, none⟩
        ↔ j ∈ js ∧ j.arrival_time.day = d.day)
    ∧ (∀ d d' : QueryDate, d.day = d'.day →
        filterJourneys js ⟨some d, some d', none⟩
          = filterJourneys js ⟨some d', some d, none⟩)
    ∧ (∀ tid : Nat, j ∈ filterJourneys js ⟨none, none, some tid⟩
        ↔ j ∈ js ∧ j.train = tid) := by
  refine ⟨?_, ?_, ?_, ?_⟩
  · intro d
    simp [filterJourneys, List.mem_filter]
  · intro d
    simp [filterJourneys, List.mem_filter]
  · intro d d' hdd
    simp [filterJourneys, hdd]
  · intro tid
    simp [filterJourneys, List.mem_filter]

/-- Witness: C9_journey_filter_day_of_month at a concrete journey list and
filter dates that differ in year and month but share the day. -/
theorem C9_journey_filter_day_of_month_witness :
    filterJourneys
        [⟨1, 1, 1, ⟨2021, 12, 31, 10, 0⟩, ⟨2022, 1, 31, 8, 0⟩⟩]
        ⟨some ⟨1999, 5, 31⟩, some ⟨2007, 2, 31⟩, none⟩
      = filterJourneys
          [⟨1, 1, 1, ⟨2021, 12, 31, 10, 0⟩, ⟨2022, 1, 31, 8, 0⟩⟩]
          ⟨some ⟨2007, 2, 31⟩, some ⟨1999, 5, 31⟩, none⟩ :=
  (C9_journey_filter_day_of_month
      [⟨1, 1, 1, ⟨2021, 12, 31, 10, 0⟩, ⟨2022, 1, 31, 8, 0⟩⟩]
      ⟨1, 1, 1, ⟨2021, 12, 31, 10, 0⟩, ⟨2022, 1, 31, 8, 0⟩⟩).2.2.1
    ⟨1999, 5, 31⟩ ⟨2007, 2, 31⟩ rfl

/-- C10: when the journey's train owns no carriage rows, the Sum aggregate
is NULL, so the annotated ticketsAvailable is NULL (none), not 0. -/
theorem C10_tickets_available_null_on_empty_train (db : DB) (j : Journey)
    (h : db.carriages.filter (fun c => c.train == j.train) = []) :
    tickets_available db j = none := by
  unfold tickets_available
  rw [h]
  rfl

/-- Witness: C10_tickets_available_null_on_empty_train at a concrete store
whose lone train owns no carriages. -/
theorem C10_tickets_available_null_on_empty_train_witness :
    tickets_available
        ({ trains := [⟨1, "T1", 1⟩], carriages := [],
           journeys := [⟨1, 1, 1, ⟨2021, 1, 1, 0, 0⟩, ⟨2021, 1, 2, 0, 0⟩⟩],
           orders := [], tickets := [⟨1, 9, 1, 1⟩],
           next_order_id := 2, next_carriage_id := 1 } : DB)
        ⟨1, 1, 1, ⟨2021, 1, 1, 0, 0⟩, ⟨2021, 1, 2, 0, 0⟩⟩
      = none :=
  C10_tickets_available_null_on_empty_train _ _ rfl

/-- The storage constraint preserves pairwise distinctness of the
(carriage, seat, journey) triples: whatever list of rows the database
accepted an INSERT into, distinct rows keep distinct triples. -/
theorem storage_insert_preserves_unique (l : List Ticket) (t : Ticket) (l' : List Ticket)
    (h : storageInsertTicket l t = some l') (hU : TicketsUnique l) : TicketsUnique l' := by
  unfold storageInsertTicket at h
  split at h
  · exact absurd h (by simp)
  · next hany =>
    injection h with h
    subst h
    rw [Bool.not_eq_true, List.any_eq_false] at hany
    unfold TicketsUnique at hU ⊢
    rw [List.pairwise_append]
    refine ⟨hU, by simp, ?_⟩
    intro a ha b hb
    simp only [List.mem_singleton] at hb
    subst hb
    have := hany a ha
    simp only [Bool.and_eq_true, beq_iff_eq, not_and] at this
    intro hcontra
    rw [Prod.ext_iff, Prod.ext_iff] at hcontra
    simp only at hcontra
    exact (by tauto : False)

/-- Inversion of a successful ticket creation: the foreign keys resolved,
validation passed, and exactly the one new row was appended. -/
theorem ticketCreate_ok_inv (db : DB) (oid : Nat) (r : TicketRequest) (d : DB)
    (h : ticketCreate db oid r = .ok d) :
    ∃ c j, db.findCarriage r.carriage = some c ∧ db.findJourney r.journey = some j
      ∧ c.id = r.carriage ∧ j.id = r.journey
      ∧ validate_ticket db.tickets r.seat c j = .ok ()
      ∧ storageInsertTicket db.tickets ⟨r.seat, c.id, j.id, oid⟩
          = some (db.tickets ++ [⟨r.seat, c.id, j.id, oid⟩])
      ∧ d = { db with tickets := db.tickets ++ [⟨r.seat, c.id, j.id, oid⟩] } := by
  unfold ticketCreate at h
  split at h
  · next c j hc hj =>
    split at h
    · next e hv => exact absurd h (by simp)
    · next u hv =>
      split at h
      · next hs => exact absurd h (by simp)
      · next ts hs =>
        have hts : ts = db.tickets ++ [⟨r.seat, c.id, j.id, oid⟩] := by
          unfold storageInsertTicket at hs
          split at hs
          · exact absurd hs (by simp)
          · injection hs with hs
            exact hs.symm
        subst hts
        injection h with h
        cases u
        refine ⟨c, j, hc, hj, ?_, ?_, hv, hs, h.symm⟩
        · simpa using List.find?_some hc
        · simpa using List.find?_some hj
  · next hne => exact absurd h (by simp)

/-- C1: distinct persisted tickets always differ on (carriage, seat,
journey); the application-level existence check fails creation with
SeatAlreadyTaken when the triple is already present; and independently the
storage layer's `unique_ticket` constraint (declared on exactly the
columns carriage, seat, journey) rejects any INSERT of a duplicate triple
and preserves triple-distinctness of the stored rows. -/
theorem C1_seat_uniqueness (db : DB) (hU : TicketsUnique db.tickets) :
    (∀ seat c j, ticketExists db.tickets seat c j = true →
        validate_ticket db.tickets seat c j = .error .seatAlreadyTaken)
    ∧ (∀ (l : List Ticket) (t u : Ticket), u ∈ l →
        (u.carriage, u.seat, u.journey) = (t.carriage, t.seat, t.journey) →
        storageInsertTicket l t = none)
    ∧ (∀ l t l', storageInsertTicket l t = some l' → TicketsUnique l → TicketsUnique l')
    ∧ (∀ oid r d, ticketCreate db oid r = .ok d → TicketsUnique d.tickets)
    ∧ unique_ticket_fields = ["carriage", "seat", "journey"] := by
  refine ⟨?_, ?_, storage_insert_preserves_unique, ?_, rfl⟩
  · intro seat c j h
    simp [validate_ticket, h]
  · intro l t u hu heq
    unfold storageInsertTicket
    have hany : l.any (fun v => v.carriage == t.carriage && v.seat == t.seat && v.journey == t.journey) = true := by
      rw [List.any_eq_true]
      refine ⟨u, hu, ?_⟩
      simp only [Prod.ext_iff] at heq
      simp [heq.1, heq.2.1, heq.2.2]
    simp [hany]
  · intro oid r d h
    obtain ⟨c, j, hc, hj, hcid, hjid, hv, hs, hd⟩ := ticketCreate_ok_inv db oid r d h
    subst hd
    exact storage_insert_preserves_unique _ _ _ hs hU

/-- Witness: C1_seat_uniqueness on a concrete store holding one ticket,
for the same (carriage, seat, journey) triple. -/
theorem C1_seat_uniqueness_witness :
    validate_ticket [⟨1, 1, 10, 1⟩] 1
        ⟨1, 1, 5, 1, CarriageType.economy⟩
        ⟨10, 1, 1, ⟨2021, 1, 1, 9, 0⟩, ⟨2021, 1, 1, 12, 0⟩⟩
      = .error .seatAlreadyTaken :=
  (C1_seat_uniqueness
      { trains := [⟨1, "T1", 1⟩],
        carriages := [⟨1, 1, 5, 1, CarriageType.economy⟩],
        journeys := [⟨10, 1, 1, ⟨2021, 1, 1, 9, 0⟩, ⟨2021, 1, 1, 12, 0⟩⟩],
        orders := [⟨1, 7⟩], tickets := [⟨1, 1, 10, 1⟩],
        next_order_id := 2, next_carriage_id := 2 }
      (by unfold TicketsUnique; exact List.pairwise_singleton _ _)).1
    1 ⟨1, 1, 5, 1, CarriageType.economy⟩
    ⟨10, 1, 1, ⟨2021, 1, 1, 9, 0⟩, ⟨2021, 1, 1, 12, 0⟩⟩ (by decide)

/-- Inversion of a passing validate_ticket: no duplicate triple existed and
the seat lies in [1, carriage.seats]. -/
theorem validate_ticket_ok_inv (ts : List Ticket) (seat : Int) (c : Carriage) (j : Journey)
    (h : validate_ticket ts seat c j = .ok ()) :
    ticketExists ts seat c j = false ∧ 1 ≤ seat ∧ seat ≤ c.seats := by
  unfold validate_ticket at h
  split at h
  · exact absurd h (by simp)
  · next hex =>
    split at h
    · exact absurd h (by simp)
    · next hv =>
      rw [Bool.not_eq_true] at hex
      rw [Bool.not_eq_true, Bool.not_eq_false'] at hv
      unfold Carriage.is_seat_number_valid at hv
      simp only [Bool.and_eq_true, decide_eq_true_eq] at hv
      exact ⟨hex, hv⟩

/-- C3: over a store whose tickets for this carriage already respect the
seat range, validation fails with SeatOutOfRange exactly when the seat is
below 1 or above the carriage's seat count; and successful ticket creation
preserves the invariant that every persisted ticket's seat lies in
[1, seats] of its carriage. -/
theorem C3_seat_out_of_range (db : DB) (c : Carriage) (j : Journey) (seat : Int)
    (hin : ∀ t ∈ db.tickets, t.carriage = c.id → 1 ≤ t.seat ∧ t.seat ≤ c.seats) :
    (validate_ticket db.tickets seat c j = .error .seatOutOfRange
        ↔ (seat < 1 ∨ c.seats < seat))
    ∧ (SeatRangeInv db → ∀ oid r d, ticketCreate db oid r = .ok d → SeatRangeInv d) := by
  constructor
  · constructor
    · intro h
      unfold validate_ticket at h
      split at h
      · exact absurd h (by simp)
      · split at h
        · next hv =>
          rw [Bool.not_eq_true'] at hv
          unfold Carriage.is_seat_number_valid at hv
          simp only [Bool.and_eq_false_iff, decide_eq_false_iff_not, not_le] at hv
          omega
        · exact absurd h (by simp)
    · intro hout
      have hex : ticketExists db.tickets seat c j = false := by
        unfold ticketExists
        rw [List.any_eq_false]
        intro t ht
        simp only [Bool.and_eq_true, beq_iff_eq, not_and]
        intro h1
        exfalso
        have h3 := hin t ht h1.1
        omega
      unfold validate_ticket
      rw [hex]
      have hv : c.is_seat_number_valid seat = false := by
        unfold Carriage.is_seat_number_valid
        simp only [Bool.and_eq_false_iff, decide_eq_false_iff_not, not_le]
        omega
      simp [hv]
  · intro hInv oid r d h
    obtain ⟨c', j', hc, hj, hcid, hjid, hv, hs, hd⟩ := ticketCreate_ok_inv db oid r d h
    obtain ⟨hex, hlo, hhi⟩ := validate_ticket_ok_inv _ _ _ _ hv
    subst hd
    intro t ht c'' hfc
    rw [List.mem_append] at ht
    rcases ht with ht | ht
    · exact hInv t ht c'' hfc
    · simp only [List.mem_singleton] at ht
      subst ht
      simp only at hfc ⊢
      rw [hcid] at hfc
      have : some c' = some c'' := hc.symm.trans hfc
      injection this with this
      subst this
      exact ⟨hlo, hhi⟩

/-- Witness: C3_seat_out_of_range on an empty ticket table, a 5-seat
carriage and the out-of-range seat 9. -/
theorem C3_seat_out_of_range_witness :
    validate_ticket [] 9
        ⟨1, 1, 5, 1, CarriageType.economy⟩
        ⟨10, 1, 1, ⟨2021, 1, 1, 9, 0⟩, ⟨2021, 1, 1, 12, 0⟩⟩
      = .error .seatOutOfRange :=
  (C3_seat_out_of_range
      { trains := [⟨1, "T1", 1⟩],
        carriages := [⟨1, 1, 5, 1, CarriageType.economy⟩],
        journeys := [⟨10, 1, 1, ⟨2021, 1, 1, 9, 0⟩, ⟨2021, 1, 1, 12, 0⟩⟩],
        orders := [], tickets := [],
        next_order_id := 1, next_carriage_id := 2 }
      ⟨1, 1, 5, 1, CarriageType.economy⟩
      ⟨10, 1, 1, ⟨2021, 1, 1, 9, 0⟩, ⟨2021, 1, 1, 12, 0⟩⟩ 9
      (by intro t ht; cases ht)).1.mpr (Or.inr (by decide))

/-- Counterexample to C5: a concrete store with a journey on train 1 and a
carriage owned by train 2; a ticket pairing them is admitted by ticket
creation (persisted, not rejected), so a persisted ticket can reference a
carriage belonging to a different train than its journey's train. -/
theorem C5_mismatched_train_cex :
    ticketCreate
        ({ trains := [⟨1, "T1", 1⟩, ⟨2, "T2", 1⟩],
           carriages := [⟨2, 1, 5, 2, CarriageType.economy⟩],
           journeys := [⟨10, 1, 1, ⟨2021, 1, 1, 9, 0⟩, ⟨2021, 1, 1, 12, 0⟩⟩],
           orders := [⟨1, 7⟩], tickets := [],
           next_order_id := 2, next_carriage_id := 3 } : DB)
        1 ⟨1, 2, 10⟩
      = .ok
          { trains := [⟨1, "T1", 1⟩, ⟨2, "T2", 1⟩],
            carriages := [⟨2, 1, 5, 2, CarriageType.economy⟩],
            journeys := [⟨10, 1, 1, ⟨2021, 1, 1, 9, 0⟩, ⟨2021, 1, 1, 12, 0⟩⟩],
            orders := [⟨1, 7⟩], tickets := [⟨1, 2, 10, 1⟩],
            next_order_id := 2, next_carriage_id := 3 }
    ∧ (⟨2, 1, 5, 2, CarriageType.economy⟩ : Carriage).train
        ≠ (⟨10, 1, 1, ⟨2021, 1, 1, 9, 0⟩, ⟨2021, 1, 1, 12, 0⟩⟩ : Journey).train := by
  exact ⟨rfl, by decide⟩

/-- C5 as amended: ticket validation checks only triple uniqueness and the
seat range, never that the carriage's train equals the journey's train; a
request pairing a carriage with a journey of a different train is admitted
(persisted) whenever the seat is free and in range — there is no
InconsistentTrainAssignment rejection. -/
theorem C5_mismatched_train_admitted (db : DB) (oid : Nat) (r : TicketRequest)
    (c : Carriage) (j : Journey)
    (hc : db.findCarriage r.carriage = some c)
    (hj : db.findJourney r.journey = some j)
    (_hmm : c.train ≠ j.train)
    (hex : ticketExists db.tickets r.seat c j = false)
    (hval : c.is_seat_number_valid r.seat = true) :
    ticketCreate db oid r
      = .ok { db with tickets := db.tickets ++ [⟨r.seat, c.id, j.id, oid⟩] } := by
  have hv : validate_ticket db.tickets r.seat c j = .ok () := by
    unfold validate_ticket
    rw [hex, hval]
    rfl
  have hs : storageInsertTicket db.tickets ⟨r.seat, c.id, j.id, oid⟩
      = some (db.tickets ++ [⟨r.seat, c.id, j.id, oid⟩]) := by
    unfold storageInsertTicket
    unfold ticketExists at hex
    rw [hex]
    rfl
  unfold ticketCreate
  rw [hc, hj]
  simp only [hv, hs]

/-- Witness: C5_mismatched_train_admitted at the concrete mismatched store. -/
theorem C5_mismatched_train_admitted_witness :
    ticketCreate
        ({ trains := [⟨1, "T1", 1⟩, ⟨2, "T2", 1⟩],
           carriages := [⟨2, 1, 5, 2, CarriageType.economy⟩],
           journeys := [⟨10, 1, 1, ⟨2021, 1, 1, 9, 0⟩, ⟨2021, 1, 1, 12, 0⟩⟩],
           orders := [⟨1, 7⟩], tickets := [],
           next_order_id := 2, next_carriage_id := 3 } : DB)
        1 ⟨2, 2, 10⟩
      = .ok
          { trains := [⟨1, "T1", 1⟩, ⟨2, "T2", 1⟩],
            carriages := [⟨2, 1, 5, 2, CarriageType.economy⟩],
            journeys := [⟨10, 1, 1, ⟨2021, 1, 1, 9, 0⟩, ⟨2021, 1, 1, 12, 0⟩⟩],
            orders := [⟨1, 7⟩], tickets := [⟨2, 2, 10, 1⟩],
            next_order_id := 2, next_carriage_id := 3 } :=
  C5_mismatched_train_admitted _ 1 ⟨2, 2, 10⟩
    ⟨2, 1, 5, 2, CarriageType.economy⟩
    ⟨10, 1, 1, ⟨2021, 1, 1, 9, 0⟩, ⟨2021, 1, 1, 12, 0⟩⟩
    rfl rfl (by decide) rfl rfl

/-- Counterexample to C8: carriage creation accepts and persists a carriage
with seat count 0 (< 1); the `seats` column carries no validator, so
creation does not fail on seats < 1. -/
theorem C8_zero_seats_accepted_cex :
    createCarriage
        ({ trains := [⟨1, "T1", 1⟩], carriages := [], journeys := [],
           orders := [], tickets := [],
           next_order_id := 1, next_carriage_id := 1 } : DB)
        1 CarriageType.economy 0 1
      = .ok
          { trains := [⟨1, "T1", 1⟩],
            carriages := [⟨1, 1, 0, 1, CarriageType.economy⟩],
            journeys := [], orders := [], tickets := [],
            next_order_id := 1, next_carriage_id := 2 }
    ∧ ((⟨1, 1, 0, 1, CarriageType.economy⟩ : Carriage).seats < 1) := by
  exact ⟨rfl, by decide⟩

/-- C8 as amended: carriage creation validates only the carriage number
(at least 1, and unique within the train); the seat count is not validated,
so a carriage with any integer seat count — including seats < 1 — is
accepted and persisted as given. -/
theorem C8_carriage_creation_ignores_seats (db : DB) (number seats : Int)
    (ty : CarriageType) (train : Nat)
    (hn : 1 ≤ number)
    (hdup : db.carriages.any (fun c => c.number == number && c.train == train) = false) :
    createCarriage db number ty seats train
      = .ok { db with
                carriages := db.carriages
                  ++ [⟨db.next_carriage_id, number, seats, train, ty⟩],
                next_carriage_id := db.next_carriage_id + 1 } := by
  unfold createCarriage
  have hn' : ¬(number < 1) := by omega
  rw [if_neg hn']
  unfold validate_carriage_number
  rw [hdup]
  rfl

/-- Witness: C8_carriage_creation_ignores_seats persisting a carriage with
seats = -3 on an empty carriage table. -/
theorem C8_carriage_creation_ignores_seats_witness :
    createCarriage
        ({ trains := [⟨1, "T1", 1⟩], carriages := [], journeys := [],
           orders := [], tickets := [],
           next_order_id := 1, next_carriage_id := 1 } : DB)
        2 CarriageType.business (-3) 1
      = .ok
          { trains := [⟨1, "T1", 1⟩],
            carriages := [⟨1, 2, -3, 1, CarriageType.business⟩],
            journeys := [], orders := [], tickets := [],
            next_order_id := 1, next_carriage_id := 2 } :=
  C8_carriage_creation_ignores_seats _ 2 (-3) CarriageType.business 1 (by decide) rfl

/-- Creating the same ticket request twice in a row: the second creation
always fails with SeatAlreadyTaken, because the first one's row is visible
inside the transaction. -/
theorem ticketCreate_then_dup (db : DB) (oid oid2 : Nat) (r : TicketRequest) (d1 : DB)
    (h : ticketCreate db oid r = .ok d1) :
    ticketCreate d1 oid2 r = .error (.ticket .seatAlreadyTaken) := by
  obtain ⟨c, j, hc, hj, hcid, hjid, hv, hs, hd⟩ := ticketCreate_ok_inv db oid r d1 h
  subst hd
  have hc' : DB.findCarriage
      { db with tickets := db.tickets ++ [⟨r.seat, c.id, j.id, oid⟩] } r.carriage = some c := hc
  have hj' : DB.findJourney
      { db with tickets := db.tickets ++ [⟨r.seat, c.id, j.id, oid⟩] } r.journey = some j := hj
  have hex : ticketExists (db.tickets ++ [⟨r.seat, c.id, j.id, oid⟩]) r.seat c j = true := by
    unfold ticketExists
    rw [List.any_eq_true]
    exact ⟨⟨r.seat, c.id, j.id, oid⟩, by simp, by simp⟩
  have hv' : validate_ticket (db.tickets ++ [⟨r.seat, c.id, j.id, oid⟩]) r.seat c j
      = .error .seatAlreadyTaken := by
    unfold validate_ticket
    rw [hex]
    rfl
  unfold ticketCreate
  rw [hc', hj']
  simp only [hv']

/-- A successful fold of ticket creations appends exactly the requested
rows, in order, all carrying the given order id, and touches no other
table. -/
theorem foldlM_ticketCreate_ok (reqs : List TicketRequest) (oid : Nat) (d0 d : DB)
    (h : reqs.foldlM (fun x r => ticketCreate x oid r) d0 = .ok d) :
    d.tickets = d0.tickets ++ reqs.map (fun r => ⟨r.seat, r.carriage, r.journey, oid⟩)
    ∧ d.orders = d0.orders ∧ d.trains = d0.trains ∧ d.carriages = d0.carriages
    ∧ d.journeys = d0.journeys ∧ d.next_order_id = d0.next_order_id := by
  induction reqs generalizing d0 with
  | nil =>
    rw [List.foldlM_nil] at h
    have hd : d0 = d := by
      simpa [pure, Except.pure] using h
    subst hd
    simp
  | cons r rs ih =>
    rw [List.foldlM_cons] at h
    cases hstep : ticketCreate d0 oid r with
    | error e =>
      rw [hstep] at h
      exact absurd h (by simp [Bind.bind, Except.bind])
    | ok d1 =>
      rw [hstep] at h
      simp only [Bind.bind, Except.bind] at h
      obtain ⟨ht, ho, htr, hca, hjo, hni⟩ := ih d1 h
      obtain ⟨c, j, hc, hj, hcid, hjid, hv, hs, hd⟩ := ticketCreate_ok_inv d0 oid r d1 hstep
      subst hd
      simp only at ht ho htr hca hjo hni
      rw [hcid, hjid] at ht
      refine ⟨?_, ho, htr, hca, hjo, hni⟩
      rw [ht, List.map_cons, List.append_assoc]
      rfl

/-- C2: order placement is all-or-nothing.  On success the persisted state
is exactly the old state plus the one order row and the requested ticket
rows in submission order; on any failure the transaction leaves the store
unchanged; and a request containing the same (carriage, seat, journey)
tuple twice always fails, persisting nothing. -/
theorem C2_order_all_or_nothing (db : DB) (u : Nat) (reqs : List TicketRequest) :
    (∀ d, placeOrder db u reqs = .ok d →
        d.tickets = db.tickets
            ++ reqs.map (fun r => ⟨r.seat, r.carriage, r.journey, db.next_order_id⟩)
        ∧ d.orders = db.orders ++ [⟨db.next_order_id, u⟩]
        ∧ d.trains = db.trains ∧ d.carriages = db.carriages ∧ d.journeys = db.journeys)
    ∧ (∀ e, placeOrder db u reqs = .error e → applyOrder db u reqs = db)
    ∧ (∀ r, reqs = [r, r] → ∃ e, placeOrder db u reqs = .error e) := by
  refine ⟨?_, ?_, ?_⟩
  · intro d h
    unfold placeOrder at h
    split at h
    · exact absurd h (by simp)
    · obtain ⟨ht, ho, htr, hca, hjo, hni⟩ := foldlM_ticketCreate_ok reqs db.next_order_id _ d h
      simp only at ht ho htr hca hjo hni
      exact ⟨ht, ho, htr, hca, hjo⟩
  · intro e h
    unfold applyOrder
    rw [h]
  · rintro r rfl
    unfold placeOrder
    rw [if_neg (by simp)]
    rw [List.foldlM_cons]
    cases hstep : ticketCreate
        { db with
            orders := db.orders ++ [⟨db.next_order_id, u⟩],
            next_order_id := db.next_order_id + 1 }
        db.next_order_id r with
    | error e =>
      refine ⟨e, ?_⟩
      simp only [hstep, Bind.bind, Except.bind]
    | ok d1 =>
      refine ⟨.ticket .seatAlreadyTaken, ?_⟩
      have hdup := ticketCreate_then_dup _ db.next_order_id db.next_order_id r d1 hstep
      simp only [hstep, Bind.bind, Except.bind]
      rw [List.foldlM_cons]
      simp only [hdup, Bind.bind, Except.bind]

/-- Witness: C2_order_all_or_nothing on a concrete store and a duplicated
single-seat request; the whole order is rejected. -/
theorem C2_order_all_or_nothing_witness :
    ∃ e, placeOrder
        ({ trains := [⟨1, "T1", 1⟩],
           carriages := [⟨1, 1, 5, 1, CarriageType.economy⟩],
           journeys := [⟨10, 1, 1, ⟨2021, 1, 1, 9, 0⟩, ⟨2021, 1, 1, 12, 0⟩⟩],
           orders := [], tickets := [],
           next_order_id := 1, next_carriage_id := 2 } : DB)
        7 [⟨1, 1, 10⟩, ⟨1, 1, 10⟩] = .error e :=
  (C2_order_all_or_nothing _ 7 [⟨1, 1, 10⟩, ⟨1, 1, 10⟩]).2.2 ⟨1, 1, 10⟩ rfl

/-- SQL Sum of a non-empty column list is its mathematical sum. -/
theorem sqlSum_cons (x : Int) (xs : List Int) : sqlSum (x :: xs) = some ((x :: xs).sum) := by
  show some (List.foldl (· + ·) 0 (x :: xs)) = some ((x :: xs).sum)
  rw [foldl_add_eq_add_sum]
  simp

/-- When the journey's train owns at least one carriage, the annotation is
the seat sum minus the coalesced ticket count. -/
theorem tickets_available_some (db : DB) (j : Journey)
    (h : db.carriages.filter (fun c => c.train == j.train) ≠ []) :
    tickets_available db j
      = some (((db.carriages.filter (fun c => c.train == j.train)).map Carriage.seats).sum
          - ticketCount db j.id) := by
  unfold tickets_available
  cases hcs : db.carriages.filter (fun c => c.train == j.train) with
  | nil => exact absurd hcs h
  | cons c cs =>
    rw [List.map_cons, sqlSum_cons]

/-- C6 as amended: for every listed journey whose train owns at least one
carriage, ticketsAvailable equals the sum of the seats of the train's
carriages minus the count of tickets issued for the journey (the spec's
formula); when the train owns no carriages the value is NULL, not the
formula's number. -/
theorem C6_tickets_available_formula (db : DB) (j : Journey)
    (h : db.carriages.filter (fun c => c.train == j.train) ≠ []) :
    tickets_available db j = some (spec_tickets_available db j) := by
  rw [tickets_available_some db j h]
  rfl

/-- Counterexample to C6 as stated: with a journey on a carriage-less
train, the spec formula gives the number 0 while the code's annotation is
NULL, so the listed value does not equal the formula. -/
theorem C6_tickets_available_cex :
    tickets_available
        ({ trains := [⟨1, "T1", 1⟩], carriages := [],
           journeys := [⟨1, 1, 1, ⟨2021, 1, 1, 9, 0⟩, ⟨2021, 1, 1, 12, 0⟩⟩],
           orders := [], tickets := [],
           next_order_id := 1, next_carriage_id := 1 } : DB)
        ⟨1, 1, 1, ⟨2021, 1, 1, 9, 0⟩, ⟨2021, 1, 1, 12, 0⟩⟩
      = none
    ∧ spec_tickets_available
        ({ trains := [⟨1, "T1", 1⟩], carriages := [],
           journeys := [⟨1, 1, 1, ⟨2021, 1, 1, 9, 0⟩, ⟨2021, 1, 1, 12, 0⟩⟩],
           orders := [], tickets := [],
           next_order_id := 1, next_carriage_id := 1 } : DB)
        ⟨1, 1, 1, ⟨2021, 1, 1, 9, 0⟩, ⟨2021, 1, 1, 12, 0⟩⟩
      = 0
    ∧ tickets_available
        ({ trains := [⟨1, "T1", 1⟩], carriages := [],
           journeys := [⟨1, 1, 1, ⟨2021, 1, 1, 9, 0⟩, ⟨2021, 1, 1, 12, 0⟩⟩],
           orders := [], tickets := [],
           next_order_id := 1, next_carriage_id := 1 } : DB)
        ⟨1, 1, 1, ⟨2021, 1, 1, 9, 0⟩, ⟨2021, 1, 1, 12, 0⟩⟩
      ≠ some
          (spec_tickets_available
            ({ trains := [⟨1, "T1", 1⟩], carriages := [],
               journeys := [⟨1, 1, 1, ⟨2021, 1, 1, 9, 0⟩, ⟨2021, 1, 1, 12, 0⟩⟩],
               orders := [], tickets := [],
               next_order_id := 1, next_carriage_id := 1 } : DB)
            ⟨1, 1, 1, ⟨2021, 1, 1, 9, 0⟩, ⟨2021, 1, 1, 12, 0⟩⟩) := by
  refine ⟨rfl, rfl, by decide⟩

/-- Witness: C6_tickets_available_formula on a store whose train owns one
4-seat carriage and has one issued ticket: the annotation is 4 - 1 = 3. -/
theorem C6_tickets_available_formula_witness :
    tickets_available
        ({ trains := [⟨1, "T1", 1⟩],
           carriages := [⟨1, 1, 4, 1, CarriageType.economy⟩],
           journeys := [⟨10, 1, 1, ⟨2021, 1, 1, 9, 0⟩, ⟨2021, 1, 1, 12, 0⟩⟩],
           orders := [⟨1, 7⟩], tickets := [⟨1, 1, 10, 1⟩],
           next_order_id := 2, next_carriage_id := 2 } : DB)
        ⟨10, 1, 1, ⟨2021, 1, 1, 9, 0⟩, ⟨2021, 1, 1, 12, 0⟩⟩
      = some
          (spec_tickets_available
            ({ trains := [⟨1, "T1", 1⟩],
               carriages := [⟨1, 1, 4, 1, CarriageType.economy⟩],
               journeys := [⟨10, 1, 1, ⟨2021, 1, 1, 9, 0⟩, ⟨2021, 1, 1, 12, 0⟩⟩],
               orders := [⟨1, 7⟩], tickets := [⟨1, 1, 10, 1⟩],
               next_order_id := 2, next_carriage_id := 2 } : DB)
            ⟨10, 1, 1, ⟨2021, 1, 1, 9, 0⟩, ⟨2021, 1, 1, 12, 0⟩⟩) :=
  C6_tickets_available_formula _ _ (by decide)

/-- Distinct-id carriage rows are determined by their id. -/
theorem carriage_eq_of_id_eq (l : List Carriage) (hnd : (l.map Carriage.id).Nodup)
    (c d : Carriage) (hc : c ∈ l) (hd : d ∈ l) (hid : c.id = d.id) : c = d := by
  induction l with
  | nil => cases hc
  | cons a l ih =>
    rw [List.map_cons, List.nodup_cons] at hnd
    rcases List.mem_cons.mp hc with rfl | hc'
    · rcases List.mem_cons.mp hd with rfl | hd'
      · rfl
      · exfalso
        apply hnd.1
        rw [hid]
        exact List.mem_map_of_mem Carriage.id hd'
    · rcases List.mem_cons.mp hd with rfl | hd'
      · exfalso
        apply hnd.1
        rw [← hid]
        exact List.mem_map_of_mem Carriage.id hc'
      · exact ih hnd.2 hc' hd'

/-- A duplicate-free list of integers drawn from [1, m] has at most m
elements. -/
theorem length_le_of_nodup_bounded (l : List Int) (m : Int)
    (hnd : l.Nodup) (hmem : ∀ x ∈ l, 1 ≤ x ∧ x ≤ m) (hm : 0 ≤ m) :
    (l.length : Int) ≤ m := by
  have hsub : l.toFinset ⊆ Finset.Icc 1 m := by
    intro x hx
    rw [List.mem_toFinset] at hx
    rw [Finset.mem_Icc]
    exact hmem x hx
  have hcard := Finset.card_le_card hsub
  rw [List.toFinset_card_of_nodup hnd, Int.card_Icc] at hcard
  omega

/-- Counting bound behind seat availability: tickets with pairwise distinct
(carriage, seat) pairs, each referencing a listed carriage (distinct ids,
non-negative seat counts) with an in-range seat, number at most the sum of
the listed carriages' seats. -/
theorem tickets_le_seat_sum (cs : List Carriage) (ts : List Ticket)
    (hnd : (cs.map Carriage.id).Nodup)
    (hpair : ts.Pairwise (fun t u => (t.carriage, t.seat) ≠ (u.carriage, u.seat)))
    (hmem : ∀ t ∈ ts, ∃ c, c ∈ cs ∧ c.id = t.carriage ∧ 1 ≤ t.seat ∧ t.seat ≤ c.seats)
    (hpos : ∀ c ∈ cs, 0 ≤ c.seats) :
    (ts.length : Int) ≤ (cs.map Carriage.seats).sum := by
  induction cs generalizing ts with
  | nil =>
    cases ts with
    | nil => simp
    | cons t ts' =>
      obtain ⟨c, hc, -⟩ := hmem t (List.mem_cons_self t ts')
      cases hc
  | cons c cs ih =>
    rw [List.map_cons, List.nodup_cons] at hnd
    have hsplit := length_filter_add_length_not ts (fun t => t.carriage == c.id)
    have h1 : ((ts.filter (fun t => t.carriage == c.id)).length : Int) ≤ c.seats := by
      have hp1 : (ts.filter (fun t => t.carriage == c.id)).Pairwise
          (fun t u => t.seat ≠ u.seat) := by
        have hp : (ts.filter (fun t => t.carriage == c.id)).Pairwise
            (fun t u => (t.carriage, t.seat) ≠ (u.carriage, u.seat)) :=
          hpair.sublist (List.filter_sublist ts)
        refine hp.imp_of_mem ?_
        intro a b ha hb hno hseat
        apply hno
        have haid : a.carriage = c.id := by simpa using (List.mem_filter.mp ha).2
        have hbid : b.carriage = c.id := by simpa using (List.mem_filter.mp hb).2
        rw [Prod.ext_iff]
        exact ⟨haid.trans hbid.symm, hseat⟩
      have hlen :
          ((ts.filter (fun t => t.carriage == c.id)).map Ticket.seat).length
            = (ts.filter (fun t => t.carriage == c.id)).length := List.length_map _ _
      rw [← hlen]
      apply length_le_of_nodup_bounded _ c.seats
      · exact hp1.map Ticket.seat (fun a b hab => hab)
      · intro x hx
        obtain ⟨t, ht, rfl⟩ := List.mem_map.mp hx
        have htmem := List.mem_filter.mp ht
        have htid : t.carriage = c.id := by simpa using htmem.2
        obtain ⟨c', hc', hcid', hlo, hhi⟩ := hmem t htmem.1
        rcases List.mem_cons.mp hc' with rfl | hc''
        · exact ⟨hlo, hhi⟩
        · exfalso
          apply hnd.1
          rw [show c.id = c'.id from (htid ▸ hcid').symm]
          exact List.mem_map_of_mem Carriage.id hc''
      · exact hpos c (List.mem_cons_self c cs)
    have h2 : ((ts.filter (fun t => !(t.carriage == c.id))).length : Int)
        ≤ (cs.map Carriage.seats).sum := by
      refine ih (ts.filter (fun t => !(t.carriage == c.id))) hnd.2 ?_ ?_ ?_
      · exact hpair.sublist (List.filter_sublist ts)
      · intro t ht
        have htmem := List.mem_filter.mp ht
        have htid : t.carriage ≠ c.id := by simpa using htmem.2
        obtain ⟨c', hc', hcid', hlo, hhi⟩ := hmem t htmem.1
        rcases List.mem_cons.mp hc' with rfl | hc'' 
        · exact absurd hcid'.symm htid
        · exact ⟨c', hc'', hcid', hlo, hhi⟩
      · intro c' hc'
        exact hpos c' (List.mem_cons_of_mem c hc')
    rw [List.map_cons, List.sum_cons]
    omega

/-- Counterexample to C4: through the system's own order placement, a
journey on a 1-seat train accepts two tickets booked in a carriage of a
different train (no train-consistency check exists), leaving
ticketsAvailable = capacity − count = 1 − 2 = −1 < 0. -/
theorem C4_negative_availability_cex :
    placeOrder
        ({ trains := [⟨1, "T1", 1⟩, ⟨2, "T2", 1⟩],
           carriages := [⟨1, 1, 1, 1, CarriageType.economy⟩, ⟨2, 1, 2, 2, CarriageType.economy⟩],
           journeys := [⟨10, 1, 1, ⟨2021, 1, 1, 9, 0⟩, ⟨2021, 1, 1, 12, 0⟩⟩],
           orders := [], tickets := [],
           next_order_id := 1, next_carriage_id := 3 } : DB)
        7 [⟨1, 2, 10⟩, ⟨2, 2, 10⟩]
      = .ok
          { trains := [⟨1, "T1", 1⟩, ⟨2, "T2", 1⟩],
            carriages := [⟨1, 1, 1, 1, CarriageType.economy⟩, ⟨2, 1, 2, 2, CarriageType.economy⟩],
            journeys := [⟨10, 1, 1, ⟨2021, 1, 1, 9, 0⟩, ⟨2021, 1, 1, 12, 0⟩⟩],
            orders := [⟨1, 7⟩], tickets := [⟨1, 2, 10, 1⟩, ⟨2, 2, 10, 1⟩],
            next_order_id := 2, next_carriage_id := 3 }
    ∧ tickets_available
        ({ trains := [⟨1, "T1", 1⟩, ⟨2, "T2", 1⟩],
           carriages := [⟨1, 1, 1, 1, CarriageType.economy⟩, ⟨2, 1, 2, 2, CarriageType.economy⟩],
           journeys := [⟨10, 1, 1, ⟨2021, 1, 1, 9, 0⟩, ⟨2021, 1, 1, 12, 0⟩⟩],
           orders := [⟨1, 7⟩], tickets := [⟨1, 2, 10, 1⟩, ⟨2, 2, 10, 1⟩],
           next_order_id := 2, next_carriage_id := 3 } : DB)
        ⟨10, 1, 1, ⟨2021, 1, 1, 9, 0⟩, ⟨2021, 1, 1, 12, 0⟩⟩
      = some (-1)
    ∧ (-1 : Int) < 0 := by
  refine ⟨rfl, rfl, by decide⟩

/-- C4 as amended: ticketsAvailable(J) cannot go negative when every
ticket of J references a carriage actually owned by J's train (with
non-negative seat counts and distinct carriage ids), given the uniqueness
and seat-range invariants that ticket admission maintains; without the
train-consistency restriction — which the code does not check — the value
can go negative. -/
theorem C4_availability_nonneg (db : DB) (j : Journey)
    (hU : TicketsUnique db.tickets)
    (hR : SeatRangeInv db)
    (hid : (db.carriages.map Carriage.id).Nodup)
    (hC : ∀ t ∈ db.tickets, t.journey = j.id →
        ∃ c, c ∈ db.carriages ∧ c.id = t.carriage ∧ c.train = j.train)
    (hS : ∀ c ∈ db.carriages, 0 ≤ c.seats) :
    ∀ a, tickets_available db j = some a → 0 ≤ a := by
  intro a ha
  by_cases hne : db.carriages.filter (fun c => c.train == j.train) = []
  · unfold tickets_available at ha
    rw [hne] at ha
    exact absurd ha (by simp [sqlSum])
  · rw [tickets_available_some db j hne] at ha
    rw [Option.some.injEq] at ha
    have hbound :
        (((db.tickets.filter (fun t => t.journey == j.id)).length : Nat) : Int)
          ≤ (((db.carriages.filter (fun c => c.train == j.train)).map Carriage.seats)).sum := by
      apply tickets_le_seat_sum
      · exact List.Nodup.sublist ((List.filter_sublist db.carriages).map Carriage.id) hid
      · have hp : (db.tickets.filter (fun t => t.journey == j.id)).Pairwise
            (fun t u => (t.carriage, t.seat, t.journey) ≠ (u.carriage, u.seat, u.journey)) :=
          hU.sublist (List.filter_sublist db.tickets)
        refine hp.imp_of_mem ?_
        intro t u ht hu hno hpair
        apply hno
        have htj : t.journey = j.id := by simpa using (List.mem_filter.mp ht).2
        have huj : u.journey = j.id := by simpa using (List.mem_filter.mp hu).2
        rw [Prod.ext_iff] at hpair
        rw [Prod.ext_iff, Prod.ext_iff]
        exact ⟨hpair.1, hpair.2, htj.trans huj.symm⟩
      · intro t ht
        have htmem := List.mem_filter.mp ht
        have htj : t.journey = j.id := by simpa using htmem.2
        obtain ⟨c, hcmem, hcid, hctrain⟩ := hC t htmem.1 htj
        refine ⟨c, List.mem_filter.mpr ⟨hcmem, by simp [hctrain]⟩, hcid, ?_⟩
        have hfind : db.findCarriage t.carriage = some c := by
          cases hfc : db.findCarriage t.carriage with
          | none =>
            exfalso
            have := List.find?_eq_none.mp hfc c hcmem
            simp [hcid] at this
          | some c'' =>
            have hmem'' := List.mem_of_find?_eq_some hfc
            have hid'' : c''.id = t.carriage := by simpa using List.find?_some hfc
            rw [carriage_eq_of_id_eq db.carriages hid c'' c hmem'' hcmem
              (hid''.trans hcid.symm)]
        exact hR t htmem.1 c hfind
      · intro c hc
        exact hS c (List.mem_filter.mp hc).1
    have hcount : ticketCount db j.id
        = ((db.tickets.filter (fun t => t.journey == j.id)).length : Int) := rfl
    rw [hcount] at ha
    omega

/-- Witness: C4_availability_nonneg on a consistent concrete store (one
2-seat carriage on the journey's own train, one issued ticket): the
annotation is some 1 and indeed 0 ≤ 1. -/
theorem C4_availability_nonneg_witness :
    ∃ a, tickets_available
        ({ trains := [⟨1, "T1", 1⟩],
           carriages := [⟨1, 1, 2, 1, CarriageType.economy⟩],
           journeys := [⟨10, 1, 1, ⟨2021, 1, 1, 9, 0⟩, ⟨2021, 1, 1, 12, 0⟩⟩],
           orders := [⟨1, 7⟩], tickets := [⟨1, 1, 10, 1⟩],
           next_order_id := 2, next_carriage_id := 2 } : DB)
        ⟨10, 1, 1, ⟨2021, 1, 1, 9, 0⟩, ⟨2021, 1, 1, 12, 0⟩⟩
      = some a ∧ 0 ≤ a := by
  refine ⟨1, rfl, ?_⟩
  apply C4_availability_nonneg
      { trains := [⟨1, "T1", 1⟩],
        carriages := [⟨1, 1, 2, 1, CarriageType.economy⟩],
        journeys := [⟨10, 1, 1, ⟨2021, 1, 1, 9, 0⟩, ⟨2021, 1, 1, 12, 0⟩⟩],
        orders := [⟨1, 7⟩], tickets := [⟨1, 1, 10, 1⟩],
        next_order_id := 2, next_carriage_id := 2 }
      ⟨10, 1, 1, ⟨2021, 1, 1, 9, 0⟩, ⟨2021, 1, 1, 12, 0⟩⟩
  · unfold TicketsUnique
    exact List.pairwise_singleton _ _
  · intro t ht c hfc
    rw [List.mem_singleton] at ht
    subst ht
    have hc2 : some (⟨1, 1, 2, 1, CarriageType.economy⟩ : Carriage) = some c := hfc
    injection hc2 with hc2
    subst hc2
    exact ⟨by decide, by decide⟩
  · decide
  · intro t ht htj
    rw [List.mem_singleton] at ht
    subst ht
    exact ⟨⟨1, 1, 2, 1, CarriageType.economy⟩, by decide, rfl, rfl⟩
  · intro c hc
    rw [List.mem_singleton] at hc
    subst hc
    decide
  · rfl
